import Mathlib

/-!
Shallow embedding of the scan/clean lifecycle coordinator of the CLeaner
front-end (src/src/store/systemStore.ts) and the scan-complete push handler
(src/src/hooks/useWebSocket.ts).

Modelling conventions:
- The zustand store state is the structure `SystemState`; each store action
  becomes a pure function from the old state (plus the responses the backend
  would return) to the new state together with the list of HTTP requests the
  action issued, in order.
- HTTP endpoints are modelled structurally by the inductive `Request`;
  `Request.url` recovers the exact URL string used in the source, and the
  body fields of the two POSTs are carried as constructor arguments.
- A rejected request / thrown JS error is `Except.error`; the value of a
  resolved promise is `Except.ok`.
- The `setInterval` polling loop of `startScan` is run over an explicit
  trace of `Tick`s: `Tick.poll st` is one firing of the interval callback
  whose status GET resolves with `{status: st}`; `Tick.userStop` is a call
  to `stopScan()` interleaved between firings.  Once the source calls
  `clearInterval` the runner carries `active = false` and later `poll`
  ticks do nothing, exactly as a cleared interval no longer fires.
- `startScan`'s own promise resolves as soon as the interval is installed
  (the `try` block ends right after `setInterval`); an error thrown inside
  the interval callback is therefore recorded separately, in the `thrown`
  field, as it becomes an unhandled rejection and never reaches the
  promise returned by `startScan`.
-/

/-- System information payload (GET /system/info).  The store never inspects
its fields, it only stores the object; the nested cpu/memory/disk metrics are
irrelevant to every property proved here, so only the discriminating `os`
field is carried. -/
structure SystemInfo where
  os : String
  deriving Repr, DecidableEq

/-- A scan result record as held in `currentScan` / `scanHistory`
(interface ScanResult of systemStore.ts).  `categories` is an untyped JSON
record in the source (`Record<string, any>`); it is modelled as an
association list from category name to the item paths of that category,
which is the only shape the store ever reads from it. -/
structure ScanResult where
  scan_id : Int
  status : String
  total_files : Int
  total_size : Int
  categories : List (String × List String)
  timestamp : String
  deriving Repr, DecidableEq

/-- The client-observable store state (interface SystemState of
systemStore.ts), without the action closures. -/
structure SystemState where
  isInitialized : Bool
  isScanning : Bool
  isCleaning : Bool
  systemInfo : Option SystemInfo
  currentScan : Option ScanResult
  scanHistory : List ScanResult
  selectedItems : List String
  theme : String
  language : String
  autoScan : Bool
  dataSharing : Bool
  deriving Repr, DecidableEq

/-- The `initialState` object of systemStore.ts (lines 72-84). -/
def initialState : SystemState :=
  { isInitialized := false
    isScanning := false
    isCleaning := false
    systemInfo := none
    currentScan := none
    scanHistory := []
    selectedItems := []
    theme := "dark"
    language := "de"
    autoScan := true
    dataSharing := false }

instance exceptDecEq {ε α : Type} [DecidableEq ε] [DecidableEq α] :
    DecidableEq (Except ε α)
  | Except.ok a, Except.ok b =>
      if h : a = b then .isTrue (by rw [h]) else .isFalse (by simp [h])
  | Except.error e, Except.error f =>
      if h : e = f then .isTrue (by rw [h]) else .isFalse (by simp [h])
  | Except.ok _, Except.error _ => .isFalse (by simp)
  | Except.error _, Except.ok _ => .isFalse (by simp)

/-- An error value carried by a rejected request or a thrown JS error. -/
abbrev ApiError := String

/-- The opaque `response.data` of POST /clean/start, returned verbatim by
`startCleaning`. -/
abbrev CleanData := String

/-- One HTTP request issued by the store, identified structurally.  The two
POSTs carry exactly the body fields built at their call sites. -/
inductive Request where
  | getSystemInfo
  | getScanHistory
  | getSettings
  | postScanStart (categories : List String) (enable_ai : Bool) (user_id : String)
  | getScanStatus (scan_id : Int)
  | getScanResults (scan_id : Int)
  | postCleanStart (scan_id : Int) (selected_items : List String)
      (create_backup : Bool) (user_id : String)
  deriving Repr, DecidableEq

/-- The URL string each request uses in the source. -/
def Request.url : Request → String
  | .getSystemInfo => "/system/info"
  | .getScanHistory => "/scan/history"
  | .getSettings => "/settings/default"
  | .postScanStart _ _ _ => "/scan/start"
  | .getScanStatus i => "/scan/status/" ++ toString i
  | .getScanResults i => "/scan/results/" ++ toString i
  | .postCleanStart _ _ _ _ => "/clean/start"

/-- Whether a request is a POST (the only non-GETs the store issues). -/
def Request.isHttpPost : Request → Bool
  | .postScanStart _ _ _ => true
  | .postCleanStart _ _ _ _ => true
  | _ => false

/-- The body of GET /scan/results/{id}: the untyped `resultsResponse.data`
that `startScan` spreads into the new scan result.  A `scan_id` field, when
the backend includes one, overrides the locally known id in the JS object
spread `{scan_id: scanId, ...resultsResponse.data, timestamp: ...}`. -/
structure ResultsData where
  scan_id : Option Int
  status : String
  total_files : Int
  total_size : Int
  categories : List (String × List String)
  deriving Repr, DecidableEq

/-- The scan-result object built at systemStore.ts lines 142-146: the local
`scanId` unless the payload carries its own, all payload fields, and a fresh
timestamp (the `new Date().toISOString()` value is passed in as `now`). -/
def mkScanResult (scanId : Int) (data : ResultsData) (now : String) : ScanResult :=
  { scan_id := (data.scan_id).getD scanId
    status := data.status
    total_files := data.total_files
    total_size := data.total_size
    categories := data.categories
    timestamp := now }

/-- `stopScan` (systemStore.ts line 166): `set({ isScanning: false })` and
nothing else — in particular it does not clear the polling interval. -/
def stopScan (s : SystemState) : SystemState :=
  { s with isScanning := false }

/-- `setScanResult` (lines 168-171): overwrite `currentScan` and append to
`scanHistory`. -/
def setScanResult (result : ScanResult) (s : SystemState) : SystemState :=
  { s with currentScan := some result
           scanHistory := s.scanHistory ++ [result] }

/-- `selectItem` (lines 173-175): append the path (duplicates possible). -/
def selectItem (path : String) (s : SystemState) : SystemState :=
  { s with selectedItems := s.selectedItems ++ [path] }

/-- `deselectItem` (lines 177-179): filter out every occurrence. -/
def deselectItem (path : String) (s : SystemState) : SystemState :=
  { s with selectedItems := s.selectedItems.filter (fun item => item ≠ path) }

/-- `handleScanComplete` of useWebSocket.ts (lines 150-156): the pushed
`scan_complete` payload goes straight into `setScanResult`; the toast and
DOM event are view-only side effects with no store state. -/
def handleScanComplete (data : ScanResult) (s : SystemState) : SystemState :=
  setScanResult data s

/-- One event in the life of the polling loop installed by `startScan`. -/
inductive Tick where
  | poll (status : String)
  | userStop
  deriving Repr, DecidableEq

/-- A poll tick whose status is neither of the two terminal answers the
callback tests for. -/
def tickNonTerminal : Tick → Bool
  | .poll st => st ≠ "completed" && st ≠ "failed"
  | .userStop => true

/-- Outcome of running the polling loop over a tick trace. -/
structure LoopOut where
  state : SystemState
  reqs : List Request
  thrown : Option String
  deriving Repr, DecidableEq

/-- The polling loop of `startScan` (systemStore.ts lines 134-158) run over
an explicit tick trace.  `active` is whether the interval is still
installed; `clearInterval` makes later poll ticks no-ops.  `userStop` ticks
apply `stopScan` to the state but touch nothing of the loop — the source
never clears the interval from `stopScan`.  On a `"completed"` status the
callback issues GET /scan/results/{id} and installs the new scan result; on
`"failed"` it clears the interval, resets `isScanning` and throws
`'Scan failed'` (recorded in `thrown`: inside the interval callback this is
an unhandled rejection). -/
def runTicks (scanId : Int) (data : ResultsData) (now : String) :
    List Tick → SystemState → Bool → LoopOut
  | [], s, _ => ⟨s, [], none⟩
  | Tick.userStop :: rest, s, active =>
      runTicks scanId data now rest (stopScan s) active
  | Tick.poll st :: rest, s, active =>
      if active then
        if st = "completed" then
          let r := mkScanResult scanId data now
          let s2 := { s with currentScan := some r
                             isScanning := false
                             scanHistory := s.scanHistory ++ [r] }
          let out := runTicks scanId data now rest s2 false
          ⟨out.state,
           Request.getScanStatus scanId :: Request.getScanResults scanId :: out.reqs,
           out.thrown⟩
        else if st = "failed" then
          let out := runTicks scanId data now rest { s with isScanning := false } false
          ⟨out.state, Request.getScanStatus scanId :: out.reqs, some "Scan failed"⟩
        else
          let out := runTicks scanId data now rest s true
          ⟨out.state, Request.getScanStatus scanId :: out.reqs, out.thrown⟩
      else
        runTicks scanId data now rest s false

/-- Outcome of a whole `startScan` call: final state, requests in order, the
settlement of the promise `startScan` returns, and any error thrown inside
the interval callback (an unhandled rejection, invisible to the caller). -/
structure ScanRun where
  state : SystemState
  reqs : List Request
  promise : Except ApiError Unit
  thrown : Option String
  deriving Repr, DecidableEq

/-- `startScan` (systemStore.ts lines 121-164).  Sets `isScanning`, POSTs
/scan/start with `{categories, enable_ai: true, user_id: 'default'}`; if the
POST rejects the catch resets `isScanning` and re-throws; if it resolves
with `scan_id` the polling interval is installed and the promise resolves at
once — the tick trace then runs after the promise has settled. -/
def startScan (categories : List String) (postResp : Except ApiError Int)
    (data : ResultsData) (now : String) (ticks : List Tick)
    (s : SystemState) : ScanRun :=
  let s1 := { s with isScanning := true }
  match postResp with
  | Except.error e =>
      ⟨{ s1 with isScanning := false },
       [Request.postScanStart categories true "default"],
       Except.error e, none⟩
  | Except.ok scanId =>
      let out := runTicks scanId data now ticks s1 true
      ⟨out.state,
       Request.postScanStart categories true "default" :: out.reqs,
       Except.ok (), out.thrown⟩

/-- Outcome of a `startCleaning` call.  `Except.ok none` is the bare
`return` of the guard (the promise resolves with `undefined`, no request
issued); `Except.ok (some d)` is `return response.data`. -/
structure CleanRun where
  state : SystemState
  reqs : List Request
  result : Except ApiError (Option CleanData)
  deriving Repr, DecidableEq

/-- `startCleaning` (systemStore.ts lines 198-223).  Bails out when there is
no current scan or no selection; otherwise sets `isCleaning`, POSTs
/clean/start with the scan id, the selected paths, `create_backup: true` and
`user_id: 'default'`; on success clears the busy flag, the selection and the
current scan; on rejection resets the busy flag and re-throws. -/
def startCleaning (postResp : Except ApiError CleanData)
    (s : SystemState) : CleanRun :=
  match s.currentScan with
  | none => ⟨s, [], Except.ok none⟩
  | some scan =>
      if s.selectedItems = [] then ⟨s, [], Except.ok none⟩
      else
        let s1 := { s with isCleaning := true }
        let req := Request.postCleanStart scan.scan_id s.selectedItems true "default"
        match postResp with
        | Except.ok d =>
            ⟨{ s1 with isCleaning := false
                       selectedItems := []
                       currentScan := none },
             [req], Except.ok (some d)⟩
        | Except.error e =>
            ⟨{ s1 with isCleaning := false }, [req], Except.error e⟩

/-- The body of GET /scan/history: `historyResponse.data`, whose `scans`
field may be absent (the source falls back with `|| []`). -/
structure HistoryData where
  scans : Option (List ScanResult)
  deriving Repr, DecidableEq

/-- The body of GET /settings/default; `theme` and `language` may be absent
(the source falls back with `|| 'dark'` and `|| 'de'`). -/
structure SettingsData where
  auto_scan_enabled : Bool
  data_sharing_enabled : Bool
  theme : Option String
  language : Option String
  deriving Repr, DecidableEq

/-- Outcome of the store's initialisation action.  Its promise always
resolves: the single catch swallows every rejection, so `promise` is
`Except.ok ()` by construction, mirroring that the async function never
re-throws. -/
structure InitRun where
  state : SystemState
  reqs : List Request
  promise : Except ApiError Unit
  deriving Repr, DecidableEq

/-- The store's `initialize` action (systemStore.ts lines 92-117), named
`initStore` here.  Three sequential GETs — system info, scan history,
settings — each applied to the state as it resolves; the first rejection
jumps to the catch, which only marks the store initialised. -/
def initStore (infoResp : Except ApiError SystemInfo)
    (histResp : Except ApiError HistoryData)
    (settingsResp : Except ApiError SettingsData)
    (s : SystemState) : InitRun :=
  match infoResp with
  | Except.error _ =>
      ⟨{ s with isInitialized := true }, [Request.getSystemInfo], Except.ok ()⟩
  | Except.ok info =>
      let s1 := { s with systemInfo := some info, isInitialized := true }
      match histResp with
      | Except.error _ =>
          ⟨{ s1 with isInitialized := true },
           [Request.getSystemInfo, Request.getScanHistory], Except.ok ()⟩
      | Except.ok h =>
          let s2 := { s1 with scanHistory := (h.scans).getD [] }
          match settingsResp with
          | Except.error _ =>
              ⟨{ s2 with isInitialized := true },
               [Request.getSystemInfo, Request.getScanHistory, Request.getSettings],
               Except.ok ()⟩
          | Except.ok st =>
              ⟨{ s2 with autoScan := st.auto_scan_enabled
                         dataSharing := st.data_sharing_enabled
                         theme := (st.theme).getD "dark"
                         language := (st.language).getD "de" },
               [Request.getSystemInfo, Request.getScanHistory, Request.getSettings],
               Except.ok ()⟩

/-! Helper functions and lemmas about the polling loop. -/

/-- State effect of a tick trace alone: only `userStop` ticks touch the
state, via `stopScan`. -/
def applyStops : List Tick → SystemState → SystemState
  | [], s => s
  | Tick.userStop :: rest, s => applyStops rest (stopScan s)
  | Tick.poll _ :: rest, s => applyStops rest s

/-- The status GETs issued while the loop keeps polling a trace. -/
def statusGets (scanId : Int) : List Tick → List Request
  | [] => []
  | Tick.userStop :: rest => statusGets scanId rest
  | Tick.poll _ :: rest => Request.getScanStatus scanId :: statusGets scanId rest

/-- Number of interval firings in a trace. -/
def pollCount : List Tick → Nat
  | [] => 0
  | Tick.userStop :: rest => pollCount rest
  | Tick.poll _ :: rest => pollCount rest + 1

theorem runTicks_nil (scanId : Int) (data : ResultsData) (now : String)
    (s : SystemState) (active : Bool) :
    runTicks scanId data now [] s active = ⟨s, [], none⟩ := rfl

theorem runTicks_stop (scanId : Int) (data : ResultsData) (now : String)
    (rest : List Tick) (s : SystemState) (active : Bool) :
    runTicks scanId data now (Tick.userStop :: rest) s active
      = runTicks scanId data now rest (stopScan s) active := rfl

theorem runTicks_poll_inactive (scanId : Int) (data : ResultsData) (now : String)
    (st : String) (rest : List Tick) (s : SystemState) :
    runTicks scanId data now (Tick.poll st :: rest) s false
      = runTicks scanId data now rest s false := rfl

theorem runTicks_poll_completed (scanId : Int) (data : ResultsData) (now : String)
    (rest : List Tick) (s : SystemState) :
    runTicks scanId data now (Tick.poll "completed" :: rest) s true
      = (let r := mkScanResult scanId data now
         let s2 := { s with currentScan := some r
                            isScanning := false
                            scanHistory := s.scanHistory ++ [r] }
         let out := runTicks scanId data now rest s2 false
         ⟨out.state,
          Request.getScanStatus scanId :: Request.getScanResults scanId :: out.reqs,
          out.thrown⟩) := rfl

theorem runTicks_poll_failed (scanId : Int) (data : ResultsData) (now : String)
    (rest : List Tick) (s : SystemState) :
    runTicks scanId data now (Tick.poll "failed" :: rest) s true
      = (let out := runTicks scanId data now rest { s with isScanning := false } false
         ⟨out.state, Request.getScanStatus scanId :: out.reqs, some "Scan failed"⟩) := rfl

theorem runTicks_poll_running (scanId : Int) (data : ResultsData) (now : String)
    (st : String) (rest : List Tick) (s : SystemState)
    (h1 : st ≠ "completed") (h2 : st ≠ "failed") :
    runTicks scanId data now (Tick.poll st :: rest) s true
      = (let out := runTicks scanId data now rest s true
         ⟨out.state, Request.getScanStatus scanId :: out.reqs, out.thrown⟩) := by
  simp [runTicks, h1, h2]

theorem stopScan_eq_self (s : SystemState) (h : s.isScanning = false) :
    stopScan s = s := by
  cases s
  simp_all [stopScan]

theorem applyStops_scanHistory (ticks : List Tick) :
    ∀ s : SystemState, (applyStops ticks s).scanHistory = s.scanHistory := by
  induction ticks with
  | nil => intro s; rfl
  | cons t rest ih => intro s; cases t <;> simp [applyStops, stopScan, ih]

theorem applyStops_currentScan (ticks : List Tick) :
    ∀ s : SystemState, (applyStops ticks s).currentScan = s.currentScan := by
  induction ticks with
  | nil => intro s; rfl
  | cons t rest ih => intro s; cases t <;> simp [applyStops, stopScan, ih]

/-- After `clearInterval` the loop issues nothing, throws nothing, and (when
`isScanning` is already clear) leaves the state untouched. -/
theorem runTicks_inactive (scanId : Int) (data : ResultsData) (now : String)
    (ticks : List Tick) : ∀ s : SystemState, s.isScanning = false →
    runTicks scanId data now ticks s false = ⟨s, [], none⟩ := by
  induction ticks with
  | nil => intro s _; rfl
  | cons t rest ih =>
      intro s hs
      cases t with
      | userStop => rw [runTicks_stop, stopScan_eq_self s hs]; exact ih s hs
      | poll st => rw [runTicks_poll_inactive]; exact ih s hs

/-- A prefix of non-terminal ticks contributes one status GET per interval
firing and only `stopScan` state effects, then hands over to the rest. -/
theorem runTicks_append (scanId : Int) (data : ResultsData) (now : String)
    (pre : List Tick) :
    ∀ (rest : List Tick) (s : SystemState), pre.all tickNonTerminal = true →
    runTicks scanId data now (pre ++ rest) s true
      = ⟨(runTicks scanId data now rest (applyStops pre s) true).state,
         statusGets scanId pre
           ++ (runTicks scanId data now rest (applyStops pre s) true).reqs,
         (runTicks scanId data now rest (applyStops pre s) true).thrown⟩ := by
  induction pre with
  | nil => intro rest s _; simp [applyStops, statusGets]
  | cons t pre ih =>
      intro rest s hall
      cases t with
      | userStop =>
          simp only [List.all_cons, Bool.and_eq_true] at hall
          simp only [List.cons_append, runTicks_stop]
          rw [ih rest (stopScan s) hall.2]
          simp [applyStops, statusGets]
      | poll st =>
          simp only [List.all_cons, Bool.and_eq_true, tickNonTerminal,
            decide_eq_true_eq] at hall
          obtain ⟨⟨h1, h2⟩, hrest⟩ := hall
          simp only [List.cons_append]
          rw [runTicks_poll_running scanId data now st (pre ++ rest) s h1 h2]
          simp only [applyStops, statusGets]
          rw [ih rest s hrest]
          simp

theorem statusGets_count_status (scanId : Int) (pre : List Tick) :
    (statusGets scanId pre).count (Request.getScanStatus scanId) = pollCount pre := by
  induction pre with
  | nil => rfl
  | cons t rest ih => cases t <;> simp [statusGets, pollCount, List.count_cons, ih]

theorem statusGets_count_results (scanId : Int) (pre : List Tick) :
    (statusGets scanId pre).count (Request.getScanResults scanId) = 0 := by
  induction pre with
  | nil => rfl
  | cons t rest ih => cases t <;> simp [statusGets, List.count_cons, ih]

/-- The polling loop issues only GETs, whatever the trace. -/
theorem runTicks_no_posts (scanId : Int) (data : ResultsData) (now : String)
    (ticks : List Tick) : ∀ (s : SystemState) (active : Bool),
    ((runTicks scanId data now ticks s active).reqs.filter Request.isHttpPost) = [] := by
  induction ticks with
  | nil => intro s active; rfl
  | cons t rest ih =>
      intro s active
      cases t with
      | userStop => rw [runTicks_stop]; exact ih _ _
      | poll st =>
          cases active with
          | false => rw [runTicks_poll_inactive]; exact ih _ _
          | true =>
              by_cases h1 : st = "completed"
              · subst h1
                rw [runTicks_poll_completed]
                simp [Request.isHttpPost, ih]
              · by_cases h2 : st = "failed"
                · subst h2
                  rw [runTicks_poll_failed]
                  simp [Request.isHttpPost, ih]
                · rw [runTicks_poll_running scanId data now st rest s h1 h2]
                  simp [Request.isHttpPost, ih]

/-- The requests and the thrown error of the polling loop do not depend on
the store state it runs against (the callback reads the state only to build
the new history). -/
theorem runTicks_reqs_state_irrelevant (scanId : Int) (data : ResultsData)
    (now : String) (ticks : List Tick) : ∀ (s t : SystemState) (active : Bool),
    (runTicks scanId data now ticks s active).reqs
      = (runTicks scanId data now ticks t active).reqs ∧
    (runTicks scanId data now ticks s active).thrown
      = (runTicks scanId data now ticks t active).thrown := by
  induction ticks with
  | nil => intro s t active; exact ⟨rfl, rfl⟩
  | cons tk rest ih =>
      intro s t active
      cases tk with
      | userStop => rw [runTicks_stop, runTicks_stop]; exact ih _ _ _
      | poll st =>
          cases active with
          | false =>
              rw [runTicks_poll_inactive, runTicks_poll_inactive]; exact ih _ _ _
          | true =>
              by_cases h1 : st = "completed"
              · subst h1
                rw [runTicks_poll_completed, runTicks_poll_completed]
                obtain ⟨hr, ht⟩ := ih
                  { s with currentScan := some (mkScanResult scanId data now)
                           isScanning := false
                           scanHistory := s.scanHistory ++ [mkScanResult scanId data now] }
                  { t with currentScan := some (mkScanResult scanId data now)
                           isScanning := false
                           scanHistory := t.scanHistory ++ [mkScanResult scanId data now] }
                  false
                exact ⟨by simp [hr], by simp [ht]⟩
              · by_cases h2 : st = "failed"
                · subst h2
                  rw [runTicks_poll_failed, runTicks_poll_failed]
                  obtain ⟨hr, _⟩ := ih { s with isScanning := false }
                    { t with isScanning := false } false
                  exact ⟨by simp [hr], by simp⟩
                · rw [runTicks_poll_running scanId data now st rest s h1 h2,
                      runTicks_poll_running scanId data now st rest t h1 h2]
                  obtain ⟨hr, ht⟩ := ih s t true
                  exact ⟨by simp [hr], by simp [ht]⟩

/-- Full characterisation of a `startScan` run that is accepted and whose
first terminal poll answer is `"completed"`. -/
theorem startScan_completed_run (categories : List String) (scanId : Int)
    (data : ResultsData) (now : String) (pre post : List Tick) (s : SystemState)
    (hpre : pre.all tickNonTerminal = true) :
    startScan categories (Except.ok scanId) data now
        (pre ++ Tick.poll "completed" :: post) s
      = ⟨{ applyStops pre { s with isScanning := true } with
             currentScan := some (mkScanResult scanId data now)
             isScanning := false
             scanHistory := (applyStops pre { s with isScanning := true }).scanHistory
               ++ [mkScanResult scanId data now] },
         Request.postScanStart categories true "default"
           :: (statusGets scanId pre
             ++ [Request.getScanStatus scanId, Request.getScanResults scanId]),
         Except.ok (), none⟩ := by
  simp only [startScan]
  rw [runTicks_append scanId data now pre _ _ hpre, runTicks_poll_completed]
  simp [runTicks_inactive]

/-- Full characterisation of a `startScan` run that is accepted and whose
first terminal poll answer is `"failed"`. -/
theorem startScan_failed_run (categories : List String) (scanId : Int)
    (data : ResultsData) (now : String) (pre post : List Tick) (s : SystemState)
    (hpre : pre.all tickNonTerminal = true) :
    startScan categories (Except.ok scanId) data now
        (pre ++ Tick.poll "failed" :: post) s
      = ⟨{ applyStops pre { s with isScanning := true } with isScanning := false },
         Request.postScanStart categories true "default"
           :: (statusGets scanId pre ++ [Request.getScanStatus scanId]),
         Except.ok (), some "Scan failed"⟩ := by
  simp only [startScan]
  rw [runTicks_append scanId data now pre _ _ hpre, runTicks_poll_failed]
  simp [runTicks_inactive]

/-! Claim theorems. -/

/-- C1 counterexample: the claim says that after `stopScan()` no further GET
to the scan-status endpoint is issued for the scan in progress.  In the code
`stopScan` only clears `isScanning` and never clears the interval, so in the
concrete run below — scan accepted with id 1, `stopScan()` called, then the
interval fires once with a non-terminal status — a status GET is still
issued after the stop. -/
theorem C1_counterexample :
    (startScan ["temp_files"] (Except.ok 1)
        ⟨none, "completed", 120, 500000, []⟩ "2024-01-01T00:00:00.000Z"
        [Tick.userStop, Tick.poll "running"] initialState).reqs
      = [Request.postScanStart ["temp_files"] true "default",
         Request.getScanStatus 1] := by
  decide

/-- C1 (amended): `stopScan()` only sets `isScanning` to `false`; it does
not halt the local polling loop — the requests the loop issues are exactly
the same whether or not `stopScan` was called, so status GETs keep being
issued until a terminal status arrives. -/
theorem C1_stop_clears_flag_not_polling (scanId : Int) (data : ResultsData)
    (now : String) (ticks : List Tick) (s : SystemState) (active : Bool) :
    stopScan s = { s with isScanning := false } ∧
    (runTicks scanId data now ticks (stopScan s) active).reqs
      = (runTicks scanId data now ticks s active).reqs :=
  ⟨rfl, (runTicks_reqs_state_irrelevant scanId data now ticks (stopScan s) s active).1⟩

/-- C2: on the first poll whose status is `"completed"`, the coordinator
stops polling, issues exactly one GET to the scan-results endpoint, appends
exactly one entry to `scanHistory`, sets `currentScan` to the fetched
result and clears `isScanning`; the fetched result carries the payload's
`total_files`. -/
theorem C2_completed_poll_fetches_once (categories : List String) (scanId : Int)
    (data : ResultsData) (now : String) (pre post : List Tick) (s : SystemState)
    (hpre : pre.all tickNonTerminal = true) :
    (startScan categories (Except.ok scanId) data now
        (pre ++ Tick.poll "completed" :: post) s).reqs.count
        (Request.getScanResults scanId) = 1 ∧
    (startScan categories (Except.ok scanId) data now
        (pre ++ Tick.poll "completed" :: post) s).reqs.count
        (Request.getScanStatus scanId) = pollCount pre + 1 ∧
    (startScan categories (Except.ok scanId) data now
        (pre ++ Tick.poll "completed" :: post) s).state.scanHistory
      = s.scanHistory ++ [mkScanResult scanId data now] ∧
    (startScan categories (Except.ok scanId) data now
        (pre ++ Tick.poll "completed" :: post) s).state.scanHistory.length
      = s.scanHistory.length + 1 ∧
    (startScan categories (Except.ok scanId) data now
        (pre ++ Tick.poll "completed" :: post) s).state.currentScan
      = some (mkScanResult scanId data now) ∧
    (startScan categories (Except.ok scanId) data now
        (pre ++ Tick.poll "completed" :: post) s).state.isScanning = false ∧
    (mkScanResult scanId data now).total_files = data.total_files := by
  rw [startScan_completed_run categories scanId data now pre post s hpre]
  refine ⟨?_, ?_, ?_, ?_, rfl, rfl, rfl⟩ <;>
    simp [List.count_cons, List.count_append, statusGets_count_results,
      statusGets_count_status, applyStops_scanHistory]

/-- C2 witness: the spec scenario — categories
`["temp_files","system_cache"]`, one non-terminal poll, then a poll whose
results carry `total_files = 120`, `total_size = 500000`. -/
theorem C2_scenario :
    ([Tick.poll "running"].all tickNonTerminal = true) ∧
    ((startScan ["temp_files", "system_cache"] (Except.ok 1)
        ⟨none, "completed", 120, 500000, []⟩ "2024-01-01T00:00:00.000Z"
        ([Tick.poll "running"] ++ Tick.poll "completed" :: []) initialState).reqs.count
        (Request.getScanResults 1) = 1 ∧
     (startScan ["temp_files", "system_cache"] (Except.ok 1)
        ⟨none, "completed", 120, 500000, []⟩ "2024-01-01T00:00:00.000Z"
        ([Tick.poll "running"] ++ Tick.poll "completed" :: []) initialState).reqs.count
        (Request.getScanStatus 1) = pollCount [Tick.poll "running"] + 1 ∧
     (startScan ["temp_files", "system_cache"] (Except.ok 1)
        ⟨none, "completed", 120, 500000, []⟩ "2024-01-01T00:00:00.000Z"
        ([Tick.poll "running"] ++ Tick.poll "completed" :: []) initialState).state.scanHistory
       = initialState.scanHistory
           ++ [mkScanResult 1 ⟨none, "completed", 120, 500000, []⟩ "2024-01-01T00:00:00.000Z"] ∧
     (startScan ["temp_files", "system_cache"] (Except.ok 1)
        ⟨none, "completed", 120, 500000, []⟩ "2024-01-01T00:00:00.000Z"
        ([Tick.poll "running"] ++ Tick.poll "completed" :: []) initialState).state.scanHistory.length
       = initialState.scanHistory.length + 1 ∧
     (startScan ["temp_files", "system_cache"] (Except.ok 1)
        ⟨none, "completed", 120, 500000, []⟩ "2024-01-01T00:00:00.000Z"
        ([Tick.poll "running"] ++ Tick.poll "completed" :: []) initialState).state.currentScan
       = some (mkScanResult 1 ⟨none, "completed", 120, 500000, []⟩ "2024-01-01T00:00:00.000Z") ∧
     (startScan ["temp_files", "system_cache"] (Except.ok 1)
        ⟨none, "completed", 120, 500000, []⟩ "2024-01-01T00:00:00.000Z"
        ([Tick.poll "running"] ++ Tick.poll "completed" :: []) initialState).state.isScanning = false ∧
     (mkScanResult 1 ⟨none, "completed", 120, 500000, []⟩ "2024-01-01T00:00:00.000Z").total_files
       = (120 : Int)) :=
  ⟨by decide,
   C2_completed_poll_fetches_once ["temp_files", "system_cache"] 1
     ⟨none, "completed", 120, 500000, []⟩ "2024-01-01T00:00:00.000Z"
     [Tick.poll "running"] [] initialState (by decide)⟩

/-- C3 counterexample: the claim says that when a status poll reports
failure the caller of `startScan` observes a rejected promise.  In the
concrete run below the POST is accepted and the first poll answers
`"failed"`: `isScanning` is indeed reset, but the promise returned by
`startScan` already resolved when the interval was installed — the
`throw new Error('Scan failed')` happens inside the interval callback and
becomes an unhandled rejection the caller never sees. -/
theorem C3_counterexample :
    (startScan ["temp_files"] (Except.ok 1) ⟨none, "completed", 0, 0, []⟩
        "2024-01-01T00:00:00.000Z" [Tick.poll "failed"] initialState).promise
      = Except.ok () ∧
    (startScan ["temp_files"] (Except.ok 1) ⟨none, "completed", 0, 0, []⟩
        "2024-01-01T00:00:00.000Z" [Tick.poll "failed"] initialState).state.isScanning
      = false ∧
    (startScan ["temp_files"] (Except.ok 1) ⟨none, "completed", 0, 0, []⟩
        "2024-01-01T00:00:00.000Z" [Tick.poll "failed"] initialState).thrown
      = some "Scan failed" := by
  decide

/-- C3 (amended): when the initial POST of `startScan` rejects, `isScanning`
is reset and the same error rejects the caller's promise; when the
`startCleaning` POST is issued and rejects, `isCleaning` is reset and the
error rejects the caller's promise; but when a status poll reports
`"failed"`, `isScanning` is reset while the error is thrown inside the
interval callback — the promise returned by `startScan` resolved long
before, so its caller observes no rejection. -/
theorem C3_amended_failure_paths (categories : List String) (e : ApiError)
    (data : ResultsData) (now : String) (ticks pre post : List Tick)
    (scanId : Int) (s sc : SystemState) (scan : ScanResult)
    (hpre : pre.all tickNonTerminal = true)
    (hscan : sc.currentScan = some scan) (hsel : sc.selectedItems ≠ []) :
    ((startScan categories (Except.error e) data now ticks s).state.isScanning = false ∧
     (startScan categories (Except.error e) data now ticks s).promise = Except.error e) ∧
    ((startCleaning (Except.error e) sc).state.isCleaning = false ∧
     (startCleaning (Except.error e) sc).result = Except.error e) ∧
    ((startScan categories (Except.ok scanId) data now
        (pre ++ Tick.poll "failed" :: post) s).state.isScanning = false ∧
     (startScan categories (Except.ok scanId) data now
        (pre ++ Tick.poll "failed" :: post) s).promise = Except.ok () ∧
     (startScan categories (Except.ok scanId) data now
        (pre ++ Tick.poll "failed" :: post) s).thrown = some "Scan failed") := by
  refine ⟨⟨rfl, rfl⟩, ?_, ?_⟩
  · simp [startCleaning, hscan, hsel]
  · rw [startScan_failed_run categories scanId data now pre post s hpre]
    exact ⟨rfl, rfl, rfl⟩

/-- C3 witness: concrete instantiation of the amended failure-path
behaviour, with a cleaning state holding scan id 7 and one selected path. -/
theorem C3_amended_instance :
    (([Tick.poll "running"].all tickNonTerminal = true) ∧
     ({ initialState with
          currentScan := some ⟨7, "completed", 3, 4096, [], "2024-01-01"⟩
          selectedItems := ["/tmp/a"] } : SystemState).currentScan
        = some ⟨7, "completed", 3, 4096, [], "2024-01-01"⟩ ∧
     ({ initialState with
          currentScan := some ⟨7, "completed", 3, 4096, [], "2024-01-01"⟩
          selectedItems := ["/tmp/a"] } : SystemState).selectedItems ≠ []) ∧
    (((startScan ["temp_files"] (Except.error "network down")
          ⟨none, "completed", 0, 0, []⟩ "t0" [] initialState).state.isScanning = false ∧
      (startScan ["temp_files"] (Except.error "network down")
          ⟨none, "completed", 0, 0, []⟩ "t0" [] initialState).promise
        = Except.error "network down") ∧
     ((startCleaning (Except.error "network down")
          { initialState with
              currentScan := some ⟨7, "completed", 3, 4096, [], "2024-01-01"⟩
              selectedItems := ["/tmp/a"] }).state.isCleaning = false ∧
      (startCleaning (Except.error "network down")
          { initialState with
              currentScan := some ⟨7, "completed", 3, 4096, [], "2024-01-01"⟩
              selectedItems := ["/tmp/a"] }).result = Except.error "network down") ∧
     ((startScan ["temp_files"] (Except.ok 1) ⟨none, "completed", 0, 0, []⟩ "t0"
          ([Tick.poll "running"] ++ Tick.poll "failed" :: []) initialState).state.isScanning
        = false ∧
      (startScan ["temp_files"] (Except.ok 1) ⟨none, "completed", 0, 0, []⟩ "t0"
          ([Tick.poll "running"] ++ Tick.poll "failed" :: []) initialState).promise
        = Except.ok () ∧
      (startScan ["temp_files"] (Except.ok 1) ⟨none, "completed", 0, 0, []⟩ "t0"
          ([Tick.poll "running"] ++ Tick.poll "failed" :: []) initialState).thrown
        = some "Scan failed")) :=
  ⟨⟨by decide, rfl, by decide⟩,
   C3_amended_failure_paths ["temp_files"] "network down" ⟨none, "completed", 0, 0, []⟩
     "t0" [] [Tick.poll "running"] [] 1 initialState
     { initialState with
         currentScan := some ⟨7, "completed", 3, 4096, [], "2024-01-01"⟩
         selectedItems := ["/tmp/a"] }
     ⟨7, "completed", 3, 4096, [], "2024-01-01"⟩ (by decide) rfl (by decide)⟩

/-- C4: every `startScan(categories)` call issues exactly one POST — the one
to the scan-start endpoint — and its body is exactly
`{categories, enable_ai: true, user_id: "default"}`; this holds whether the
POST resolves or rejects and however long polling then runs. -/
theorem C4_single_scan_start_post (categories : List String)
    (postResp : Except ApiError Int) (data : ResultsData) (now : String)
    (ticks : List Tick) (s : SystemState) :
    (startScan categories postResp data now ticks s).reqs.filter Request.isHttpPost
      = [Request.postScanStart categories true "default"] := by
  cases postResp with
  | error e => simp [startScan, Request.isHttpPost]
  | ok scanId => simp [startScan, Request.isHttpPost, runTicks_no_posts]

/-- C5: on the first poll whose status is `"failed"`, the coordinator stops
the polling loop (no further status GET, no results GET) and clears
`isScanning`, leaving `scanHistory` (and `currentScan`) untouched. -/
theorem C5_failed_poll_clears_flag (categories : List String) (scanId : Int)
    (data : ResultsData) (now : String) (pre post : List Tick) (s : SystemState)
    (hpre : pre.all tickNonTerminal = true) :
    (startScan categories (Except.ok scanId) data now
        (pre ++ Tick.poll "failed" :: post) s).state.isScanning = false ∧
    (startScan categories (Except.ok scanId) data now
        (pre ++ Tick.poll "failed" :: post) s).state.scanHistory = s.scanHistory ∧
    (startScan categories (Except.ok scanId) data now
        (pre ++ Tick.poll "failed" :: post) s).state.currentScan = s.currentScan ∧
    (startScan categories (Except.ok scanId) data now
        (pre ++ Tick.poll "failed" :: post) s).reqs.count
        (Request.getScanResults scanId) = 0 ∧
    (startScan categories (Except.ok scanId) data now
        (pre ++ Tick.poll "failed" :: post) s).reqs.count
        (Request.getScanStatus scanId) = pollCount pre + 1 := by
  rw [startScan_failed_run categories scanId data now pre post s hpre]
  refine ⟨rfl, ?_, ?_, ?_, ?_⟩ <;>
    simp [List.count_cons, List.count_append, statusGets_count_results,
      statusGets_count_status, applyStops_scanHistory, applyStops_currentScan]

/-- C5 witness: one non-terminal poll, then a `"failed"` poll, starting from
the pristine store. -/
theorem C5_failed_instance :
    ([Tick.poll "running"].all tickNonTerminal = true) ∧
    ((startScan ["temp_files"] (Except.ok 1) ⟨none, "completed", 0, 0, []⟩ "t0"
        ([Tick.poll "running"] ++ Tick.poll "failed" :: []) initialState).state.isScanning
      = false ∧
     (startScan ["temp_files"] (Except.ok 1) ⟨none, "completed", 0, 0, []⟩ "t0"
        ([Tick.poll "running"] ++ Tick.poll "failed" :: []) initialState).state.scanHistory
      = initialState.scanHistory ∧
     (startScan ["temp_files"] (Except.ok 1) ⟨none, "completed", 0, 0, []⟩ "t0"
        ([Tick.poll "running"] ++ Tick.poll "failed" :: []) initialState).state.currentScan
      = initialState.currentScan ∧
     (startScan ["temp_files"] (Except.ok 1) ⟨none, "completed", 0, 0, []⟩ "t0"
        ([Tick.poll "running"] ++ Tick.poll "failed" :: []) initialState).reqs.count
        (Request.getScanResults 1) = 0 ∧
     (startScan ["temp_files"] (Except.ok 1) ⟨none, "completed", 0, 0, []⟩ "t0"
        ([Tick.poll "running"] ++ Tick.poll "failed" :: []) initialState).reqs.count
        (Request.getScanStatus 1) = pollCount [Tick.poll "running"] + 1) :=
  ⟨by decide,
   C5_failed_poll_clears_flag ["temp_files"] 1 ⟨none, "completed", 0, 0, []⟩ "t0"
     [Tick.poll "running"] [] initialState (by decide)⟩

/-- C6: when `currentScan` is null or the selection is empty,
`startCleaning()` is a no-op — no request is issued, the whole state is
unchanged field for field, and the promise resolves with `undefined`. -/
theorem C6_cleaning_guard_noop (postResp : Except ApiError CleanData)
    (s : SystemState) (h : s.currentScan = none ∨ s.selectedItems = []) :
    startCleaning postResp s = ⟨s, [], Except.ok none⟩ := by
  rcases h with h | h
  · simp [startCleaning, h]
  · cases hc : s.currentScan with
    | none => simp [startCleaning, hc]
    | some scan => simp [startCleaning, hc, h]

/-- C6 witness: the pristine store has no current scan, so `startCleaning`
leaves it untouched and issues nothing. -/
theorem C6_noop_instance :
    (initialState.currentScan = none ∨ initialState.selectedItems = []) ∧
    startCleaning (Except.ok "cleaned") initialState
      = ⟨initialState, [], Except.ok none⟩ :=
  ⟨Or.inl rfl, C6_cleaning_guard_noop (Except.ok "cleaned") initialState (Or.inl rfl)⟩

/-- C7: with a current scan and a non-empty selection, a successful
`startCleaning()` POSTs exactly the current scan's id, the selected paths
and `create_backup: true`, and afterwards the selection is empty, the
current scan is cleared and `isCleaning` is `false`. -/
theorem C7_cleaning_success (d : CleanData) (scan : ScanResult) (s : SystemState)
    (h1 : s.currentScan = some scan) (h2 : s.selectedItems ≠ []) :
    (startCleaning (Except.ok d) s).reqs
      = [Request.postCleanStart scan.scan_id s.selectedItems true "default"] ∧
    (startCleaning (Except.ok d) s).state.selectedItems = [] ∧
    (startCleaning (Except.ok d) s).state.currentScan = none ∧
    (startCleaning (Except.ok d) s).state.isCleaning = false ∧
    (startCleaning (Except.ok d) s).result = Except.ok (some d) := by
  simp [startCleaning, h1, h2]

/-- C7 witness: store holding scan id 7 with one selected path. -/
theorem C7_success_instance :
    (({ initialState with
          currentScan := some ⟨7, "completed", 3, 4096, [], "2024-01-01"⟩
          selectedItems := ["/tmp/a"] } : SystemState).currentScan
        = some ⟨7, "completed", 3, 4096, [], "2024-01-01"⟩ ∧
     ({ initialState with
          currentScan := some ⟨7, "completed", 3, 4096, [], "2024-01-01"⟩
          selectedItems := ["/tmp/a"] } : SystemState).selectedItems ≠ []) ∧
    ((startCleaning (Except.ok "done")
        { initialState with
            currentScan := some ⟨7, "completed", 3, 4096, [], "2024-01-01"⟩
            selectedItems := ["/tmp/a"] }).reqs
      = [Request.postCleanStart 7 ["/tmp/a"] true "default"] ∧
     (startCleaning (Except.ok "done")
        { initialState with
            currentScan := some ⟨7, "completed", 3, 4096, [], "2024-01-01"⟩
            selectedItems := ["/tmp/a"] }).state.selectedItems = [] ∧
     (startCleaning (Except.ok "done")
        { initialState with
            currentScan := some ⟨7, "completed", 3, 4096, [], "2024-01-01"⟩
            selectedItems := ["/tmp/a"] }).state.currentScan = none ∧
     (startCleaning (Except.ok "done")
        { initialState with
            currentScan := some ⟨7, "completed", 3, 4096, [], "2024-01-01"⟩
            selectedItems := ["/tmp/a"] }).state.isCleaning = false ∧
     (startCleaning (Except.ok "done")
        { initialState with
            currentScan := some ⟨7, "completed", 3, 4096, [], "2024-01-01"⟩
            selectedItems := ["/tmp/a"] }).result = Except.ok (some "done")) :=
  ⟨⟨rfl, by decide⟩,
   C7_cleaning_success "done" ⟨7, "completed", 3, 4096, [], "2024-01-01"⟩
     { initialState with
         currentScan := some ⟨7, "completed", 3, 4096, [], "2024-01-01"⟩
         selectedItems := ["/tmp/a"] } rfl (by decide)⟩

/-- C8: the store's initialisation always resolves (the single catch
swallows every rejection and never re-throws) and leaves `isInitialized`
true, whatever the outcome of the three GETs for system info, scan history
and settings. -/
theorem C8_init_resolves_and_marks (infoResp : Except ApiError SystemInfo)
    (histResp : Except ApiError HistoryData)
    (settingsResp : Except ApiError SettingsData) (s : SystemState) :
    (initStore infoResp histResp settingsResp s).promise = Except.ok () ∧
    (initStore infoResp histResp settingsResp s).state.isInitialized = true := by
  cases infoResp <;> cases histResp <;> cases settingsResp <;> simp [initStore]

/-- C9: `selectItem(p)` followed by `deselectItem(p)` leaves a selection not
containing `p`, whatever the selection held before — `deselectItem` filters
out every occurrence, including pre-existing duplicates. -/
theorem C9_select_then_deselect_removes (p : String) (s : SystemState) :
    p ∉ (deselectItem p (selectItem p s)).selectedItems := by
  simp [selectItem, deselectItem]

/-- C10: a pushed `scan_complete` event unconditionally routes its payload
through `setScanResult`, overwriting `currentScan` and appending one entry
to `scanHistory` with no deduplication; hence a scan whose completion was
already recorded by the polling loop gets appended a second time when the
push event for it arrives. -/
theorem C10_push_appends_without_dedup (data : ScanResult)
    (categories : List String) (scanId : Int) (rd : ResultsData) (now : String)
    (pre : List Tick) (s : SystemState)
    (hpre : pre.all tickNonTerminal = true) :
    handleScanComplete data s
      = { s with currentScan := some data
                 scanHistory := s.scanHistory ++ [data] } ∧
    (handleScanComplete (mkScanResult scanId rd now)
        (startScan categories (Except.ok scanId) rd now
          (pre ++ Tick.poll "completed" :: []) s).state).scanHistory
      = s.scanHistory ++ [mkScanResult scanId rd now, mkScanResult scanId rd now] ∧
    (handleScanComplete (mkScanResult scanId rd now)
        (startScan categories (Except.ok scanId) rd now
          (pre ++ Tick.poll "completed" :: []) s).state).scanHistory.length
      = s.scanHistory.length + 2 := by
  refine ⟨rfl, ?_, ?_⟩ <;>
    rw [startScan_completed_run categories scanId rd now pre [] s hpre] <;>
    simp [handleScanComplete, setScanResult, applyStops_scanHistory]

/-- C10 witness: a scan completed through polling and then reported again by
the push channel ends up in the history twice. -/
theorem C10_double_append_instance :
    ([Tick.poll "running"].all tickNonTerminal = true) ∧
    (handleScanComplete ⟨9, "completed", 1, 1, [], "t1"⟩ initialState
      = { initialState with
            currentScan := some ⟨9, "completed", 1, 1, [], "t1"⟩
            scanHistory := initialState.scanHistory ++ [⟨9, "completed", 1, 1, [], "t1"⟩] } ∧
     (handleScanComplete (mkScanResult 9 ⟨none, "completed", 5, 50, []⟩ "t1")
        (startScan ["temp_files"] (Except.ok 9) ⟨none, "completed", 5, 50, []⟩ "t1"
          ([Tick.poll "running"] ++ Tick.poll "completed" :: []) initialState).state).scanHistory
      = initialState.scanHistory
          ++ [mkScanResult 9 ⟨none, "completed", 5, 50, []⟩ "t1",
              mkScanResult 9 ⟨none, "completed", 5, 50, []⟩ "t1"] ∧
     (handleScanComplete (mkScanResult 9 ⟨none, "completed", 5, 50, []⟩ "t1")
        (startScan ["temp_files"] (Except.ok 9) ⟨none, "completed", 5, 50, []⟩ "t1"
          ([Tick.poll "running"] ++ Tick.poll "completed" :: []) initialState).state).scanHistory.length
      = initialState.scanHistory.length + 2) :=
  ⟨by decide,
   C10_push_appends_without_dedup ⟨9, "completed", 1, 1, [], "t1"⟩ ["temp_files"] 9
     ⟨none, "completed", 5, 50, []⟩ "t1" [Tick.poll "running"] initialState (by decide)⟩
